import Mathlib

/-!
Verification of the Z-Wave JS integration orchestration file
(`homeassistant/components/zwave_js/__init__.py`) against its
natural-language specification.

The Python file is shallowly embedded: the event-callback handlers become
pure state-transformers on an explicit session state, the device registry
(an external collaborator, consumed through the contract
`getOrCreate / remove / entriesForEntry / getDevice`) becomes a list-backed
structure, and the cooperative platform-setup concurrency becomes a
small-step relation.  Fallible code paths (a Python `AttributeError` from
dereferencing a `None` device) are modelled with `Option`.
-/

/-! ## Device identity and registry

`get_device_id(client, node)` is defined in `helpers.py`, which is not part
of the analysed sources; the spec defines node identity as "home id +
node id", so the identifier is modelled as that pair. -/

/-- Modelled from the spec: `helpers.get_device_id` is absent from the
analysed sources; the spec's data model says a node's identity is
"home id + node id", so the identifier is the pair of the two. -/
def get_device_id (homeId nodeId : Nat) : Nat × Nat :=
  (homeId, nodeId)

/-- A mesh node as seen by the handlers: identity, readiness flag and the
display metadata that `register_node_in_dev_reg` snapshots. -/
structure Node where
  nodeId : Nat
  ready : Bool
  firmwareVersion : Option String
  name : Option String
  deviceConfigDescription : Option String
  deviceConfigLabel : Option String
  manufacturer : Option String
  location : Option String
  deriving DecidableEq, Repr

/-- A device registry entry (the external registry's record). -/
structure Device where
  id : Nat
  configEntryId : Nat
  identifier : Nat × Nat
  swVersion : Option String
  name : String
  model : Option String
  manufacturer : Option String
  suggestedArea : Option String
  deriving DecidableEq, Repr

/-- The parameters `register_node_in_dev_reg` passes to
`dev_reg.async_get_or_create`. -/
structure DeviceParams where
  configEntryId : Nat
  identifier : Nat × Nat
  swVersion : Option String
  name : String
  model : Option String
  manufacturer : Option String
  suggestedArea : Option String
  deriving DecidableEq, Repr

/-- The device registry, an external collaborator consumed through
`getOrCreate / remove / entriesForEntry / getDevice` (spec section 6). -/
structure DeviceRegistry where
  devices : List Device
  nextId : Nat
  deriving DecidableEq, Repr

/-- Embeds `dev_reg.async_get_device({identifier})`: look a device up by its
identifier set (a singleton here). -/
def DeviceRegistry.getDevice (reg : DeviceRegistry) (ident : Nat × Nat) :
    Option Device :=
  reg.devices.find? (fun d => d.identifier = ident)

/-- Overwrite a device's registered fields with fresh parameters
(the registry contract: same identity means same record, fields
overwritten). -/
def applyParams (params : DeviceParams) (d : Device) : Device :=
  { d with
    configEntryId := params.configEntryId
    swVersion := params.swVersion
    name := params.name
    model := params.model
    manufacturer := params.manufacturer
    suggestedArea := params.suggestedArea }

/-- The fresh record the registry creates when no device matches the
identifier set. -/
def freshDevice (params : DeviceParams) (devId : Nat) : Device :=
  { id := devId
    configEntryId := params.configEntryId
    identifier := params.identifier
    swVersion := params.swVersion
    name := params.name
    model := params.model
    manufacturer := params.manufacturer
    suggestedArea := params.suggestedArea }

/-- Embeds `dev_reg.async_get_or_create(**params)`: idempotent upsert keyed by the
identifier set. -/
def DeviceRegistry.getOrCreate (reg : DeviceRegistry) (params : DeviceParams) :
    Device × DeviceRegistry :=
  match reg.devices.find? (fun d => d.identifier = params.identifier) with
  | some d =>
      let d' := applyParams params d
      (d', { reg with
              devices := reg.devices.map
                (fun e => if e.identifier = params.identifier
                  then applyParams params e else e) })
  | none =>
      let d := freshDevice params reg.nextId
      (d, { devices := reg.devices ++ [d], nextId := reg.nextId + 1 })

/-- Embeds `dev_reg.async_remove_device(device_id)`. -/
def DeviceRegistry.removeDevice (reg : DeviceRegistry) (devId : Nat) :
    DeviceRegistry :=
  { reg with devices := reg.devices.filter (fun d => d.id ≠ devId) }

/-- Embeds `device_registry.async_entries_for_config_entry(dev_reg, entry_id)`. -/
def entriesForConfigEntry (reg : DeviceRegistry) (entryId : Nat) :
    List Device :=
  reg.devices.filter (fun d => d.configEntryId = entryId)

/-! ## Node-removed handler (claim C1)

`async_on_node_removed` looks the device up and then evaluates
`device.id` with no `None` check (the `# type: ignore` in the source
silences exactly that warning).  A `none` result models the
`AttributeError` raised when the device is absent. -/

/-- Embeds `async_on_node_removed`: grab the device attached to the node and call
`dev_reg.async_remove_device(device.id)`.  When `async_get_device` returns
`None` the attribute access `device.id` raises; that failure is the `none`
branch. -/
def async_on_node_removed (homeId : Nat) (reg : DeviceRegistry)
    (node : Node) : Option DeviceRegistry :=
  let devId := get_device_id homeId node.nodeId
  match reg.getDevice devId with
  | some device => some (reg.removeDevice device.id)
  | none => none

/-! ## Value-notification relay (claims C5 and C10) -/

/-- The `notification.metadata` fields the relay reads, plus the notification's
own fields.  `states` is the metadata's decode table keyed by
`str(value)`. -/
structure ValueNotification where
  nodeId : Nat
  endpoint : Nat
  commandClass : Nat
  commandClassName : String
  metadataLabel : String
  metadataStates : List (String × String)
  property_ : String
  propertyName : String
  propertyKey : Option String
  propertyKeyName : Option String
  value : Nat
  deriving DecidableEq, Repr

/-- The decoded value published under `ATTR_VALUE`: either the raw value
unchanged or a human-readable label from the states table. -/
inductive DecodedValue where
  | raw (v : Nat)
  | decoded (s : String)
  deriving DecidableEq, Repr

/-- Embeds `raw_value = value = notification.value; if notification.metadata.states:
value = notification.metadata.states.get(str(value), value)`. -/
def decode_value (states : List (String × String)) (v : Nat) : DecodedValue :=
  if states.isEmpty then .raw v
  else
    match states.lookup (toString v) with
    | some s => .decoded s
    | none => .raw v

/-- The event payload fired on `ZWAVE_JS_VALUE_NOTIFICATION_EVENT`. -/
structure ValueNotificationEvent where
  domain : String
  nodeId : Nat
  homeId : Nat
  endpoint : Nat
  deviceId : Nat
  commandClass : Nat
  commandClassName : String
  label : String
  property_ : String
  propertyName : String
  propertyKey : Option String
  propertyKeyName : Option String
  value : DecodedValue
  rawValue : Nat
  deriving DecidableEq, Repr

/-- Embeds `async_on_value_notification`: resolve the node's registry device, then
build and fire the event payload.  The payload construction evaluates
`device.id`; when the device did not resolve this raises
(`AttributeError` on `None`), modelled as `none`. -/
def async_on_value_notification (homeId : Nat) (reg : DeviceRegistry)
    (notif : ValueNotification) : Option ValueNotificationEvent :=
  match reg.getDevice (get_device_id homeId notif.nodeId) with
  | none => none
  | some device =>
      some
        { domain := "zwave_js"
          nodeId := notif.nodeId
          homeId := homeId
          endpoint := notif.endpoint
          deviceId := device.id
          commandClass := notif.commandClass
          commandClassName := notif.commandClassName
          label := notif.metadataLabel
          property_ := notif.property_
          propertyName := notif.propertyName
          propertyKey := notif.propertyKey
          propertyKeyName := notif.propertyKeyName
          value := decode_value notif.metadataStates notif.value
          rawValue := notif.value }

/-! ### Concrete fixtures used by the C1 and C5 theorems -/

/-- A concrete node B used as failing input for double removal. -/
def nodeB : Node :=
  { nodeId := 2, ready := true, firmwareVersion := some "1.0"
    name := some "Node B", deviceConfigDescription := none
    deviceConfigLabel := none, manufacturer := none, location := none }

/-- A registry holding exactly node B's device for entry 5. -/
def regWithB : DeviceRegistry :=
  { devices := [{ id := 10, configEntryId := 5, identifier := (7, 2)
                  swVersion := some "1.0", name := "Node B", model := none
                  manufacturer := none, suggestedArea := none }]
    nextId := 11 }

/-- The registry after node B's device has been removed. -/
def regEmptyAfterB : DeviceRegistry := { devices := [], nextId := 11 }

/-- C1: the claim says removing node B twice in a row must not fail.
The first removal succeeds; the second finds no device, and the handler
then evaluates `device.id` on `None`, raising `AttributeError` (`none`
here) instead of being a no-op. -/
theorem C1_double_removal_raises :
    async_on_node_removed 7 regWithB nodeB = some regEmptyAfterB ∧
    async_on_node_removed 7 regEmptyAfterB nodeB = none := by
  constructor <;> rfl

/-- A concrete value notification from an unregistered node. -/
def notifUnregistered : ValueNotification :=
  { nodeId := 9, endpoint := 0, commandClass := 113
    commandClassName := "Notification", metadataLabel := "Alarm"
    metadataStates := [], property_ := "alarmType"
    propertyName := "alarmType", propertyKey := none
    propertyKeyName := none, value := 3 }

/-- An empty device registry. -/
def regEmpty : DeviceRegistry := { devices := [], nextId := 0 }

/-- C5: the claim says a notification for an unregistered node fails
silently (logs, does not propagate).  The relay has no such guard: it
unconditionally evaluates `device.id`, so an unresolved device raises
`AttributeError` (`none` here) out of the callback. -/
theorem C5_unregistered_node_raises :
    async_on_value_notification 7 regEmpty notifUnregistered = none := by
  rfl

/-- C10: in every published value-notification event the raw-value field
equals the notification's original value, and the decoded value field
falls back to that same raw value whenever the states table has no entry
for it. -/
theorem C10_raw_value_and_fallback (homeId : Nat) (reg : DeviceRegistry)
    (notif : ValueNotification) (ev : ValueNotificationEvent)
    (h : async_on_value_notification homeId reg notif = some ev) :
    ev.rawValue = notif.value ∧
      (notif.metadataStates.lookup (toString notif.value) = none →
        ev.value = .raw notif.value) := by
  unfold async_on_value_notification at h
  cases hdev : reg.getDevice (get_device_id homeId notif.nodeId) with
  | none => rw [hdev] at h; exact absurd h (by simp)
  | some device =>
      rw [hdev] at h
      have hev := Option.some.inj h
      subst hev
      refine ⟨rfl, fun hlk => ?_⟩
      show decode_value notif.metadataStates notif.value = .raw notif.value
      unfold decode_value
      by_cases hemp : notif.metadataStates.isEmpty
      · simp [hemp]
      · simp [hemp, hlk]

/-- A registry that does resolve the notifying node, for the C10 witness. -/
def regWithNode9 : DeviceRegistry :=
  { devices := [{ id := 3, configEntryId := 5, identifier := (7, 9)
                  swVersion := none, name := "Node 9", model := none
                  manufacturer := none, suggestedArea := none }]
    nextId := 4 }

/-- Witness for C10 at a concrete published event. -/
theorem C10_raw_value_and_fallback_witness :
    ∃ ev, async_on_value_notification 7 regWithNode9 notifUnregistered
        = some ev ∧
      ev.rawValue = notifUnregistered.value ∧
      (notifUnregistered.metadataStates.lookup
          (toString notifUnregistered.value) = none →
        ev.value = .raw notifUnregistered.value) := by
  refine ⟨_, rfl, C10_raw_value_and_fallback 7 regWithNode9 notifUnregistered _ rfl⟩

/-! ## Session state and the readiness handlers (claims C2 and C8)

The closure state of `async_setup_entry` that the node handlers touch:
the device registry, the `DATA_PLATFORM_SETUP` task map (here the list of
platforms whose setup task exists), the dispatched
`{DOMAIN}_{entry}_add_{platform}` events, the
`EVENT_DEVICE_ADDED_TO_REGISTRY` dispatch count, the per-node listener
subscriptions, and the node ids holding a one-shot `once("ready", ...)`
waiter. -/

/-- A discovery descriptor: platform (category) plus a within-node key. -/
structure DiscInfo where
  platform : String
  key : String
  deriving DecidableEq, Repr

/-- The per-entry mutable session state shared by the handlers. -/
structure SessionState where
  registry : DeviceRegistry
  platformSetupTasks : List String
  discoveredEvents : List DiscInfo
  deviceAddedEvents : Nat
  valueNotificationSubs : Nat
  notificationSubs : Nat
  readyWaiters : List Nat
  deriving DecidableEq, Repr

/-- The `params` dict built by `register_node_in_dev_reg`:
`name` falls back from `node.name` to the device-config description to
`f"Node {node_id}"`; `suggested_area` only when the node has a location. -/
def nodeParams (entryId homeId : Nat) (node : Node) : DeviceParams :=
  { configEntryId := entryId
    identifier := get_device_id homeId node.nodeId
    swVersion := node.firmwareVersion
    name := (node.name.getD
      (node.deviceConfigDescription.getD ("Node " ++ toString node.nodeId)))
    model := node.deviceConfigLabel
    manufacturer := node.manufacturer
    suggestedArea := node.location }

/-- Embeds `register_node_in_dev_reg`: `async_get_or_create` on the registry, then
dispatch `EVENT_DEVICE_ADDED_TO_REGISTRY`. -/
def register_node_in_dev_reg (entryId homeId : Nat) (node : Node)
    (st : SessionState) : SessionState :=
  let res := st.registry.getOrCreate (nodeParams entryId homeId node)
  { st with
    registry := res.2
    deviceAddedEvents := st.deviceAddedEvents + 1 }

/-- One iteration of the discovery loop body for one descriptor: ensure the
platform's setup task exists (create on first reference), await it, then
dispatch the add-platform event.  The `async_migrate_discovered_value`
call mutates only the entity registry (external, idempotent) and is not
tracked. -/
def discoverStep (st : SessionState) (disc : DiscInfo) : SessionState :=
  let st :=
    if disc.platform ∈ st.platformSetupTasks then st
    else { st with
            platformSetupTasks := st.platformSetupTasks ++ [disc.platform] }
  { st with discoveredEvents := st.discoveredEvents ++ [disc] }

/-- Embeds `async_on_node_ready`: register (or update) the node in the device
registry, run discovery over all node values creating/awaiting platform
setups and dispatching each discovered entity, then add the two stateless
notification listeners. -/
def async_on_node_ready (discover : Node → List DiscInfo)
    (entryId homeId : Nat) (node : Node) (st : SessionState) :
    SessionState :=
  let st := register_node_in_dev_reg entryId homeId node st
  let st := (discover node).foldl discoverStep st
  { st with
    valueNotificationSubs := st.valueNotificationSubs + 1
    notificationSubs := st.notificationSubs + 1 }

/-- Embeds `async_on_node_added`: a ready node goes straight to the ready handler;
otherwise a one-shot ready waiter is registered and the device is
submitted to the registry immediately for user visibility. -/
def async_on_node_added (discover : Node → List DiscInfo)
    (entryId homeId : Nat) (node : Node) (st : SessionState) :
    SessionState :=
  if node.ready then async_on_node_ready discover entryId homeId node st
  else
    let st := { st with readyWaiters := st.readyWaiters ++ [node.nodeId] }
    register_node_in_dev_reg entryId homeId node st

/-- Delivery of the node's `ready` event: the `once` waiter (if any) is
deregistered and fires the ready handler on the now-ready node; with no
waiter registered the event is dropped. -/
def fire_ready (discover : Node → List DiscInfo) (entryId homeId : Nat)
    (node : Node) (st : SessionState) : SessionState :=
  if node.nodeId ∈ st.readyWaiters then
    async_on_node_ready discover entryId homeId node
      { st with readyWaiters := st.readyWaiters.erase node.nodeId }
  else st

/-! ### Component lemmas for the registry upsert and the discovery fold -/

theorem applyParams_identifier (p : DeviceParams) (d : Device) :
    (applyParams p d).identifier = d.identifier := rfl

theorem applyParams_idem (p : DeviceParams) (d : Device) :
    applyParams p (applyParams p d) = applyParams p d := rfl

theorem map_eq_self_of_fix {α : Type} (f : α → α) (l : List α)
    (h : ∀ a ∈ l, f a = a) : l.map f = l := by
  induction l with
  | nil => rfl
  | cons a l ih =>
      simp only [List.map_cons, h a (List.mem_cons_self a l),
        ih fun b hb => h b (List.mem_cons_of_mem a hb)]

theorem find?_append_none {α : Type} (p : α → Bool) (l₁ l₂ : List α)
    (h : l₁.find? p = none) : (l₁ ++ l₂).find? p = l₂.find? p := by
  induction l₁ with
  | nil => rfl
  | cons a l ih =>
      cases hpa : p a with
      | true =>
          rw [List.find?_cons_of_pos _ hpa] at h
          exact absurd h (by simp)
      | false =>
          rw [List.find?_cons_of_neg _ (by simp [hpa])] at h
          rw [List.cons_append, List.find?_cons_of_neg _ (by simp [hpa])]
          exact ih h

theorem find?_map_applyParams (params : DeviceParams) (l : List Device)
    (d : Device)
    (h : l.find? (fun e => e.identifier = params.identifier) = some d) :
    (l.map (fun e => if e.identifier = params.identifier
        then applyParams params e else e)).find?
      (fun e => e.identifier = params.identifier)
      = some (applyParams params d) := by
  induction l with
  | nil => simp at h
  | cons a l ih =>
      by_cases ha : a.identifier = params.identifier
      · have hd : a = d := by
          have := h
          rw [List.find?_cons_of_pos _ (by simpa using ha)] at this
          exact Option.some.inj this
        subst hd
        simp only [List.map_cons, if_pos ha]
        exact List.find?_cons_of_pos _ (by simpa using ha)
      · have h' : l.find? (fun e => e.identifier = params.identifier)
            = some d := by
          have := h
          rwa [List.find?_cons_of_neg _ (by simpa using ha)] at this
        simp only [List.map_cons, if_neg ha]
        rw [List.find?_cons_of_neg _ (by simpa using ha)]
        exact ih h'

/-- The registry upsert is idempotent: repeating `async_get_or_create` with
the same parameters returns the same device and leaves the registry
unchanged (the spec's "same identity ⇒ same record, fields overwritten,
never duplicated"). -/
theorem getOrCreate_idem (reg : DeviceRegistry) (params : DeviceParams) :
    ((reg.getOrCreate params).2).getOrCreate params
      = ((reg.getOrCreate params).1, (reg.getOrCreate params).2) := by
  unfold DeviceRegistry.getOrCreate
  cases hfind : reg.devices.find? (fun d => d.identifier = params.identifier) with
  | none =>
      have hnone : ∀ e ∈ reg.devices,
          ¬(e.identifier = params.identifier) := by
        intro e he
        have := List.find?_eq_none.mp hfind e he
        simpa using this
      simp only [hfind]
      have happend :
          (reg.devices ++ [freshDevice params reg.nextId]).find?
            (fun d => d.identifier = params.identifier)
          = some (freshDevice params reg.nextId) := by
        rw [find?_append_none _ _ _ hfind]
        exact List.find?_cons_of_pos _ (by simp [freshDevice])
      simp only [happend, Prod.mk.injEq]
      refine ⟨rfl, ?_⟩
      rw [List.map_append]
      rw [map_eq_self_of_fix _ reg.devices
        (fun e he => if_neg (hnone e he))]
      simp [freshDevice, applyParams]
  | some d =>
      simp only [hfind]
      have hfind2 := find?_map_applyParams params reg.devices d hfind
      simp only [hfind2, Prod.mk.injEq]
      refine ⟨applyParams_idem _ _, ?_⟩
      rw [List.map_map]
      have hcomp :
          ((fun e : Device => if e.identifier = params.identifier
              then applyParams params e else e) ∘
            (fun e : Device => if e.identifier = params.identifier
              then applyParams params e else e))
          = (fun e : Device => if e.identifier = params.identifier
              then applyParams params e else e) := by
        funext e
        by_cases he : e.identifier = params.identifier
        · simp [Function.comp, he, applyParams_identifier, applyParams_idem]
        · simp [Function.comp, he]
      rw [hcomp]

theorem discoverStep_registry (st : SessionState) (d : DiscInfo) :
    (discoverStep st d).registry = st.registry := by
  unfold discoverStep; split <;> rfl

theorem discoverStep_events (st : SessionState) (d : DiscInfo) :
    (discoverStep st d).discoveredEvents = st.discoveredEvents ++ [d] := by
  unfold discoverStep; split <;> rfl

/-- The platform-setup-task list evolution of one descriptor step:
create on first reference, reuse otherwise. -/
def ensureTask (ts : List String) (d : DiscInfo) : List String :=
  if d.platform ∈ ts then ts else ts ++ [d.platform]

theorem discoverStep_tasks (st : SessionState) (d : DiscInfo) :
    (discoverStep st d).platformSetupTasks
      = ensureTask st.platformSetupTasks d := by
  unfold discoverStep ensureTask; split <;> simp_all

theorem discFold_registry (l : List DiscInfo) (st : SessionState) :
    (l.foldl discoverStep st).registry = st.registry := by
  induction l generalizing st with
  | nil => rfl
  | cons d l ih => rw [List.foldl_cons, ih, discoverStep_registry]

theorem discFold_events (l : List DiscInfo) (st : SessionState) :
    (l.foldl discoverStep st).discoveredEvents
      = st.discoveredEvents ++ l := by
  induction l generalizing st with
  | nil => simp
  | cons d l ih =>
      rw [List.foldl_cons, ih, discoverStep_events, List.append_assoc]
      rfl

theorem discFold_tasks (l : List DiscInfo) (st : SessionState) :
    (l.foldl discoverStep st).platformSetupTasks
      = l.foldl ensureTask st.platformSetupTasks := by
  induction l generalizing st with
  | nil => rfl
  | cons d l ih => rw [List.foldl_cons, ih, discoverStep_tasks]; rfl

theorem ensureTask_fold_mem_of_mem (l : List DiscInfo) (ts : List String)
    (p : String) (h : p ∈ ts) : p ∈ l.foldl ensureTask ts := by
  induction l generalizing ts with
  | nil => exact h
  | cons d l ih =>
      refine ih _ ?_
      unfold ensureTask
      split
      · exact h
      · exact List.mem_append_left _ h

theorem ensureTask_fold_mem (l : List DiscInfo) (ts : List String) :
    ∀ d ∈ l, d.platform ∈ l.foldl ensureTask ts := by
  induction l generalizing ts with
  | nil => intro d hd; simp at hd
  | cons a l ih =>
      intro d hd
      rcases List.mem_cons.mp hd with hda | hdl
      · subst hda
        rw [List.foldl_cons]
        refine ensureTask_fold_mem_of_mem l _ _ ?_
        unfold ensureTask
        split
        · assumption
        · exact List.mem_append_right _ (List.mem_singleton_self _)
      · exact ih _ d hdl

theorem ensureTask_fold_eq_of_all (l : List DiscInfo) (ts : List String)
    (h : ∀ d ∈ l, d.platform ∈ ts) : l.foldl ensureTask ts = ts := by
  induction l with
  | nil => rfl
  | cons a l ih =>
      rw [List.foldl_cons]
      have ha : ensureTask ts a = ts := by
        unfold ensureTask
        rw [if_pos (h a (List.mem_cons_self a l))]
      rw [ha]
      exact ih fun d hd => h d (List.mem_cons_of_mem a hd)

theorem ready_registry (discover : Node → List DiscInfo)
    (entryId homeId : Nat) (node : Node) (st : SessionState) :
    (async_on_node_ready discover entryId homeId node st).registry
      = (st.registry.getOrCreate (nodeParams entryId homeId node)).2 := by
  unfold async_on_node_ready
  show (((discover node).foldl discoverStep
      (register_node_in_dev_reg entryId homeId node st))).registry = _
  rw [discFold_registry]
  rfl

theorem ready_events (discover : Node → List DiscInfo)
    (entryId homeId : Nat) (node : Node) (st : SessionState) :
    (async_on_node_ready discover entryId homeId node st).discoveredEvents
      = st.discoveredEvents ++ discover node := by
  unfold async_on_node_ready
  show (((discover node).foldl discoverStep
      (register_node_in_dev_reg entryId homeId node st))).discoveredEvents = _
  rw [discFold_events]
  rfl

theorem ready_tasks (discover : Node → List DiscInfo)
    (entryId homeId : Nat) (node : Node) (st : SessionState) :
    (async_on_node_ready discover entryId homeId node st).platformSetupTasks
      = (discover node).foldl ensureTask st.platformSetupTasks := by
  unfold async_on_node_ready
  show (((discover node).foldl discoverStep
      (register_node_in_dev_reg entryId homeId node st))).platformSetupTasks = _
  rw [discFold_tasks]
  rfl

theorem register_registry (entryId homeId : Nat) (node : Node)
    (st : SessionState) :
    (register_node_in_dev_reg entryId homeId node st).registry
      = (st.registry.getOrCreate (nodeParams entryId homeId node)).2 := rfl

theorem register_waiters (entryId homeId : Nat) (node : Node)
    (st : SessionState) :
    (register_node_in_dev_reg entryId homeId node st).readyWaiters
      = st.readyWaiters := rfl

theorem nodeParams_ready_irrel (entryId homeId : Nat) (node : Node)
    (b : Bool) :
    nodeParams entryId homeId { node with ready := b }
      = nodeParams entryId homeId node := rfl

theorem added_ready (discover : Node → List DiscInfo)
    (entryId homeId : Nat) (node : Node) (st : SessionState)
    (hn : node.ready = true) :
    async_on_node_added discover entryId homeId node st
      = async_on_node_ready discover entryId homeId node st := by
  unfold async_on_node_added
  rw [hn]
  rfl

theorem added_not_ready (discover : Node → List DiscInfo)
    (entryId homeId : Nat) (node : Node) (st : SessionState)
    (hn : node.ready = false) :
    async_on_node_added discover entryId homeId node st
      = register_node_in_dev_reg entryId homeId node
          { st with readyWaiters := st.readyWaiters ++ [node.nodeId] } := by
  unfold async_on_node_added
  rw [hn]
  rfl

theorem fire_ready_mem (discover : Node → List DiscInfo)
    (entryId homeId : Nat) (node : Node) (st : SessionState)
    (hm : node.nodeId ∈ st.readyWaiters) :
    fire_ready discover entryId homeId node st
      = async_on_node_ready discover entryId homeId node
          { st with readyWaiters := st.readyWaiters.erase node.nodeId } := by
  unfold fire_ready
  rw [if_pos hm]

/-! ### Claim C2 -/

/-- A concrete descriptor on the `light` platform. -/
def disc0 : DiscInfo := { platform := "light", key := "k0" }

/-- A concrete external discovery function producing one descriptor. -/
def discover0 : Node → List DiscInfo := fun _ => [disc0]

/-- An empty session state. -/
def st0 : SessionState :=
  { registry := regEmpty, platformSetupTasks := [], discoveredEvents := []
    deviceAddedEvents := 0, valueNotificationSubs := 0, notificationSubs := 0
    readyWaiters := [] }

/-- C2 counterexample: the claim says invoking the node-ready handler twice
for the same node produces exactly one device registration and exactly one
discovery pass.  The handler has no duplicate guard: invoking it twice on
a node with one descriptor dispatches the entity-discovered event twice
(two discovery passes) and fires the device-registered event twice, not
once. -/
theorem C2_ready_not_idempotent :
    (async_on_node_ready discover0 5 7 nodeB
        (async_on_node_ready discover0 5 7 nodeB st0)).discoveredEvents
      = [disc0, disc0] ∧
    (async_on_node_ready discover0 5 7 nodeB
        (async_on_node_ready discover0 5 7 nodeB st0)).deviceAddedEvents
      = 2 ∧
    ¬((async_on_node_ready discover0 5 7 nodeB
          (async_on_node_ready discover0 5 7 nodeB st0)).discoveredEvents
        = [disc0] ∧
      (async_on_node_ready discover0 5 7 nodeB
          (async_on_node_ready discover0 5 7 nodeB st0)).deviceAddedEvents
        = 1) := by
  refine ⟨rfl, rfl, ?_⟩
  intro hcl
  exact absurd hcl.2 (by decide)

/-- C2 amended: invoking the ready handler twice leaves the device
registry and the platform-setup-task map exactly as after one invocation
(registration is an idempotent upsert and no second setup task is
created), but it runs a second discovery pass, appending the node's
descriptors to the published events again; a duplicate ready signal is
dropped only when no one-shot waiter is registered for the node. -/
theorem C2_ready_registry_and_tasks_idem (discover : Node → List DiscInfo)
    (entryId homeId : Nat) (node : Node) (st : SessionState) :
    (async_on_node_ready discover entryId homeId node
        (async_on_node_ready discover entryId homeId node st)).registry
      = (async_on_node_ready discover entryId homeId node st).registry ∧
    (async_on_node_ready discover entryId homeId node
        (async_on_node_ready discover entryId homeId node st)).platformSetupTasks
      = (async_on_node_ready discover entryId homeId node st).platformSetupTasks ∧
    (async_on_node_ready discover entryId homeId node
        (async_on_node_ready discover entryId homeId node st)).discoveredEvents
      = (async_on_node_ready discover entryId homeId node st).discoveredEvents
          ++ discover node ∧
    (node.nodeId ∉ st.readyWaiters →
      fire_ready discover entryId homeId node st = st) := by
  refine ⟨?_, ?_, ?_, ?_⟩
  · rw [ready_registry, ready_registry]
    have := congrArg Prod.snd (getOrCreate_idem st.registry
      (nodeParams entryId homeId node))
    simpa using this
  · rw [ready_tasks, ready_tasks]
    exact ensureTask_fold_eq_of_all _ _
      (ensureTask_fold_mem (discover node) st.platformSetupTasks)
  · exact ready_events discover entryId homeId node _
  · intro hnot
    unfold fire_ready
    rw [if_neg hnot]

/-- Witness for the amended C2 at a concrete node and session state. -/
theorem C2_ready_registry_and_tasks_idem_witness :
    (async_on_node_ready discover0 5 7 nodeB
        (async_on_node_ready discover0 5 7 nodeB st0)).registry
      = (async_on_node_ready discover0 5 7 nodeB st0).registry ∧
    fire_ready discover0 5 7 nodeB st0 = st0 := by
  have h := C2_ready_registry_and_tasks_idem discover0 5 7 nodeB st0
  exact ⟨h.1, h.2.2.2 (by decide)⟩

/-! ### Claim C8 -/

/-- C8: a node added while not ready and later reported ready ends with
the same device registry, the same platform-setup tasks and the same
discovered-entity events as the same node reported ready immediately at
add time.  The early registration at add time is absorbed by the
idempotent upsert that the ready handler performs again. -/
theorem C8_round_trip (discover : Node → List DiscInfo)
    (entryId homeId : Nat) (node : Node) (st : SessionState)
    (h : node.ready = true) :
    (fire_ready discover entryId homeId node
        (async_on_node_added discover entryId homeId
          { node with ready := false } st)).registry
      = (async_on_node_added discover entryId homeId node st).registry ∧
    (fire_ready discover entryId homeId node
        (async_on_node_added discover entryId homeId
          { node with ready := false } st)).platformSetupTasks
      = (async_on_node_added discover entryId homeId node st).platformSetupTasks ∧
    (fire_ready discover entryId homeId node
        (async_on_node_added discover entryId homeId
          { node with ready := false } st)).discoveredEvents
      = (async_on_node_added discover entryId homeId node st).discoveredEvents := by
  rw [added_ready discover entryId homeId node st h]
  rw [added_not_ready discover entryId homeId _ st rfl]
  rw [fire_ready_mem discover entryId homeId node _
    (by rw [register_waiters]; simp)]
  refine ⟨?_, ?_, ?_⟩
  · rw [ready_registry, ready_registry]
    show ((st.registry.getOrCreate
        (nodeParams entryId homeId { node with ready := false })).2.getOrCreate
          (nodeParams entryId homeId node)).2
      = (st.registry.getOrCreate (nodeParams entryId homeId node)).2
    rw [nodeParams_ready_irrel]
    have := congrArg Prod.snd (getOrCreate_idem st.registry
      (nodeParams entryId homeId node))
    simpa using this
  · rw [ready_tasks, ready_tasks]
    rfl
  · rw [ready_events, ready_events]
    rfl

/-- Witness for C8 at a concrete ready node. -/
theorem C8_round_trip_witness :
    nodeB.ready = true ∧
    ((fire_ready discover0 5 7 nodeB
        (async_on_node_added discover0 5 7
          { nodeB with ready := false } st0)).registry
      = (async_on_node_added discover0 5 7 nodeB st0).registry ∧
    (fire_ready discover0 5 7 nodeB
        (async_on_node_added discover0 5 7
          { nodeB with ready := false } st0)).platformSetupTasks
      = (async_on_node_added discover0 5 7 nodeB st0).platformSetupTasks ∧
    (fire_ready discover0 5 7 nodeB
        (async_on_node_added discover0 5 7
          { nodeB with ready := false } st0)).discoveredEvents
      = (async_on_node_added discover0 5 7 nodeB st0).discoveredEvents) :=
  ⟨rfl, C8_round_trip discover0 5 7 nodeB st0 rfl⟩

/-! ## Stale-device reconciliation at session start (claim C4)

Lines 308-320 of `start_platforms`: after the driver's initial state
loads, the registry's devices for this entry are compared against the
controller's live node set via `async_get_device` lookups, and any stored
device not among the looked-up ones is removed. -/

/-- The stale-cleanup block of `start_platforms`: `stored_devices` and
`known_devices` are computed once, then each stored device not contained
in `known_devices` is removed. -/
def start_platforms_stale_cleanup (entryId homeId : Nat)
    (reg : DeviceRegistry) (liveNodeIds : List Nat) : DeviceRegistry :=
  let stored_devices := entriesForConfigEntry reg entryId
  let known_devices := liveNodeIds.map
    (fun nid => reg.getDevice (get_device_id homeId nid))
  stored_devices.foldl
    (fun r device =>
      if (some device) ∈ known_devices then r
      else r.removeDevice device.id)
    reg

theorem stale_fold_devices (L : List Device) (c : Device → Prop)
    [DecidablePred c] (reg : DeviceRegistry) :
    (L.foldl (fun r dev => if c dev then r else r.removeDevice dev.id)
        reg).devices
      = reg.devices.filter (fun d => decide (∀ dev ∈ L, c dev ∨ d.id ≠ dev.id)) := by
  induction L generalizing reg with
  | nil => simp
  | cons a L ih =>
      rw [List.foldl_cons]
      by_cases hca : c a
      · rw [if_pos hca, ih]
        apply List.filter_congr
        intro d hd
        apply decide_eq_decide.mpr
        simp [List.forall_mem_cons, hca]
      · rw [if_neg hca, ih]
        show (reg.devices.filter fun d => d.id ≠ a.id).filter _ = _
        rw [List.filter_filter]
        apply List.filter_congr
        intro d hd
        rw [Bool.eq_iff_iff]
        simp only [Bool.and_eq_true, decide_eq_true_eq, List.forall_mem_cons]
        tauto

theorem getDevice_some (reg : DeviceRegistry) (key : Nat × Nat) (d : Device)
    (h : reg.getDevice key = some d) :
    d ∈ reg.devices ∧ d.identifier = key := by
  unfold DeviceRegistry.getDevice at h
  exact ⟨List.mem_of_find?_eq_some h, by simpa using List.find?_some h⟩

theorem getDevice_mem_ident (reg : DeviceRegistry) (d : Device)
    (hident : (reg.devices.map (fun d => d.identifier)).Nodup)
    (hd : d ∈ reg.devices) : reg.getDevice d.identifier = some d := by
  unfold DeviceRegistry.getDevice
  cases hf : reg.devices.find? (fun e => e.identifier = d.identifier) with
  | none =>
      have := List.find?_eq_none.mp hf d hd
      simp at this
  | some e =>
      have hmem := List.mem_of_find?_eq_some hf
      have hpred : e.identifier = d.identifier := by
        simpa using List.find?_some hf
      rw [List.inj_on_of_nodup_map hident hmem hd hpred]

/-- C4: with well-formed registry invariants (distinct device ids and
distinct identifiers, maintained by the registry contract), the stale
cleanup keeps exactly the devices that either belong to another config
entry or whose node identity is in the controller's live node set; every
kept device keeps its exact record and position (no removal, no
re-creation, no duplicate), and every device of the entry whose identity
is not live is removed.  In the spec's example, registry {A,B,C} with live
nodes {A,C} ends as {A,C}. -/
theorem C4_stale_cleanup (entryId homeId : Nat) (reg : DeviceRegistry)
    (live : List Nat)
    (hid : (reg.devices.map (fun d => d.id)).Nodup)
    (hident : (reg.devices.map (fun d => d.identifier)).Nodup) :
    (start_platforms_stale_cleanup entryId homeId reg live).devices
      = reg.devices.filter
          (fun d => decide (d.configEntryId = entryId →
            d.identifier ∈ live.map (get_device_id homeId))) := by
  unfold start_platforms_stale_cleanup
  refine (stale_fold_devices _ _ _).trans ?_
  apply List.filter_congr
  intro d hd
  apply decide_eq_decide.mpr
  constructor
  · intro hall hentry
    have hds : d ∈ entriesForConfigEntry reg entryId := by
      unfold entriesForConfigEntry
      exact List.mem_filter.mpr ⟨hd, by simpa using hentry⟩
    rcases hall d hds with hk | hne
    · rcases List.mem_map.mp hk with ⟨nid, hnid, hget⟩
      have hsome := getDevice_some reg _ d hget
      exact List.mem_map.mpr ⟨nid, hnid, hsome.2.symm⟩
    · exact absurd rfl hne
  · intro himp dev hdev
    have hdev' := List.mem_filter.mp hdev
    have hdevc : dev.configEntryId = entryId := by simpa using hdev'.2
    by_cases hde : d.id = dev.id
    · obtain rfl := List.inj_on_of_nodup_map hid hd hdev'.1 hde
      rcases List.mem_map.mp (himp hdevc) with ⟨nid, hnid, hgid⟩
      refine Or.inl (List.mem_map.mpr ⟨nid, hnid, ?_⟩)
      rw [hgid]
      exact getDevice_mem_ident reg d hident hd
    · exact Or.inr hde

/-- Device A in the spec's {A,B,C} example. -/
def devA : Device :=
  { id := 1, configEntryId := 5, identifier := (7, 1), swVersion := none
    name := "A", model := none, manufacturer := none, suggestedArea := none }

/-- Device B in the spec's {A,B,C} example. -/
def devB : Device :=
  { id := 2, configEntryId := 5, identifier := (7, 2), swVersion := none
    name := "B", model := none, manufacturer := none, suggestedArea := none }

/-- Device C in the spec's {A,B,C} example. -/
def devC : Device :=
  { id := 3, configEntryId := 5, identifier := (7, 3), swVersion := none
    name := "C", model := none, manufacturer := none, suggestedArea := none }

/-- The spec's example registry holding devices {A,B,C} for entry 5. -/
def regABC : DeviceRegistry := { devices := [devA, devB, devC], nextId := 4 }

/-- Witness for C4 at the spec's own example: registry {A,B,C}, live
nodes {A,C}; reconciliation removes exactly B. -/
theorem C4_stale_cleanup_witness :
    (regABC.devices.map (fun d => d.id)).Nodup ∧
    (regABC.devices.map (fun d => d.identifier)).Nodup ∧
    (start_platforms_stale_cleanup 5 7 regABC [1, 3]).devices
      = regABC.devices.filter
          (fun d => decide (d.configEntryId = 5 →
            d.identifier ∈ [1, 3].map (get_device_id 7))) ∧
    (start_platforms_stale_cleanup 5 7 regABC [1, 3]).devices
      = [devA, devC] :=
  ⟨by decide, by decide,
    C4_stale_cleanup 5 7 regABC [1, 3] (by decide) (by decide), by decide⟩

/-! ## The listen loop (claim C6) -/

/-- The ways `client.listen(driver_ready)` can terminate inside
`client_listen`. -/
inductive ListenOutcome where
  | closed
  | cancelled
  | serverError
  | unexpectedError
  deriving DecidableEq, Repr

/-- Observable actions of `client_listen` after the listen call ends. -/
inductive ListenAction where
  | logFailedToListen
  | logUnexpected
  | reloadRequest
  deriving DecidableEq, Repr

/-- Embeds `client_listen`: `should_reload` starts `True` and is cleared only by
`asyncio.CancelledError`; a server error or an unexpected exception is
logged and swallowed; finally one reload task is created iff
`should_reload` survived.  The loop is never re-entered: there is no
resume action. -/
def client_listen (outcome : ListenOutcome) : List ListenAction :=
  let acts : List ListenAction :=
    match outcome with
    | .closed => []
    | .cancelled => []
    | .serverError => [.logFailedToListen]
    | .unexpectedError => [.logUnexpected]
  let should_reload : Bool :=
    match outcome with
    | .cancelled => false
    | _ => true
  acts ++ (if should_reload then [.reloadRequest] else [])

/-- C6: the listen loop requests a full entry reload exactly once when it
terminates for any reason other than cancellation (normal transport
closure, server error, or an unexpected exception), and requests no
reload on cancellation; no other recovery action exists, so the session
is never resumed in place. -/
theorem C6_reload_once_unless_cancelled (outcome : ListenOutcome) :
    (client_listen outcome).count .reloadRequest
      = (if outcome = .cancelled then 0 else 1) := by
  cases outcome <;> rfl

/-! ## Disconnect ordering (claim C7) -/

/-- The tasks owned by the session that `disconnect_client` touches. -/
inductive TaskId where
  | listen
  | startPlatforms
  | platformSetup (platform : String)
  deriving DecidableEq, Repr

/-- Observable actions of `disconnect_client`, in program order. -/
inductive DAction where
  | cancel (t : TaskId)
  | join (t : TaskId)
  | transportDisconnect
  deriving DecidableEq, Repr

/-- Embeds `disconnect_client`: cancel the listen task, the start-platforms task
and every platform-setup task, then `await asyncio.gather(...)` joins them
all (when the gather itself raises, the function exits before reaching the
disconnect), and only afterwards call `client.disconnect()` if the client
is still connected. -/
def disconnect_client (platforms : List String) (gatherOk connected : Bool) :
    List DAction :=
  [DAction.cancel .listen, DAction.cancel .startPlatforms]
    ++ platforms.map (fun p => DAction.cancel (.platformSetup p))
    ++ (if gatherOk then
          [DAction.join .listen, DAction.join .startPlatforms]
            ++ platforms.map (fun p => DAction.join (.platformSetup p))
            ++ (if connected then [DAction.transportDisconnect] else [])
        else [])

/-- C7: whenever the transport's `disconnect()` is invoked, every
dependent task (the listen task, the start-platforms task and all
platform-setup tasks) has been cancelled and joined strictly before it,
and the disconnect is the last action: `disconnect()` is never called
while a dependent task is still running. -/
theorem C7_disconnect_after_joins (platforms : List String)
    (gatherOk connected : Bool)
    (h : DAction.transportDisconnect
      ∈ disconnect_client platforms gatherOk connected) :
    ∃ pre, disconnect_client platforms gatherOk connected
        = pre ++ [DAction.transportDisconnect] ∧
      DAction.transportDisconnect ∉ pre ∧
      ∀ t ∈ TaskId.listen :: TaskId.startPlatforms ::
          platforms.map TaskId.platformSetup,
        DAction.cancel t ∈ pre ∧ DAction.join t ∈ pre := by
  cases gatherOk with
  | false =>
      exfalso
      simp [disconnect_client] at h
  | true =>
      cases connected with
      | false =>
          exfalso
          simp [disconnect_client] at h
      | true =>
          refine ⟨[DAction.cancel .listen, DAction.cancel .startPlatforms]
              ++ platforms.map (fun p => DAction.cancel (.platformSetup p))
              ++ [DAction.join .listen, DAction.join .startPlatforms]
              ++ platforms.map (fun p => DAction.join (.platformSetup p)),
            ?_, ?_, ?_⟩
          · simp [disconnect_client]
          · simp
          · intro t ht
            rcases List.mem_cons.mp ht with rfl | ht
            · constructor <;> simp
            rcases List.mem_cons.mp ht with rfl | ht
            · constructor <;> simp
            rcases List.mem_map.mp ht with ⟨p, hp, rfl⟩
            constructor
            · refine List.mem_append_left _ (List.mem_append_left _
                (List.mem_append_right _ ?_))
              exact List.mem_map.mpr ⟨p, hp, rfl⟩
            · refine List.mem_append_right _ ?_
              exact List.mem_map.mpr ⟨p, hp, rfl⟩

/-- Witness for C7 with one platform-setup task, a clean gather and a
connected client. -/
theorem C7_disconnect_after_joins_witness :
    ∃ pre, disconnect_client ["light"] true true
        = pre ++ [DAction.transportDisconnect] ∧
      DAction.transportDisconnect ∉ pre ∧
      ∀ t ∈ TaskId.listen :: TaskId.startPlatforms ::
          (["light"] : List String).map TaskId.platformSetup,
        DAction.cancel t ∈ pre ∧ DAction.join t ∈ pre :=
  C7_disconnect_after_joins ["light"] true true (by simp [disconnect_client])

/-! ## Addon lifecycle guard (claim C9) -/

/-- The background operations the guard can schedule. -/
inductive SchedOp where
  | installSetup
  | startSetup
  deriving DecidableEq, Repr

/-- Why `async_ensure_addon_running` raises `ConfigEntryNotReady`: the
reentry guard (the spec's `OperationInProgress`), a failed info query, or
a scheduled install/start that leaves the entry not yet ready. -/
inductive RaiseReason where
  | operationInProgress
  | addonInfoFailed
  | notYetReady
  deriving DecidableEq, Repr

/-- The addon manager's observable status when the guard runs. -/
structure AddonState where
  taskInProgress : Bool
  infoQueryFails : Bool
  installed : Bool
  running : Bool
  deriving DecidableEq, Repr

/-- What one call to `async_ensure_addon_running` does: which background
operation it schedules (if any) and which exception it raises (if any). -/
structure EnsureResult where
  scheduled : Option SchedOp
  raised : Option RaiseReason
  deriving DecidableEq, Repr

/-- Embeds `async_ensure_addon_running`: fail fast if a lifecycle task is in
progress; raise if the install/run status queries fail; schedule install
(not installed) or start (installed but stopped) in the background and
raise `ConfigEntryNotReady`; otherwise return with no action. -/
def async_ensure_addon_running (s : AddonState) : EnsureResult :=
  if s.taskInProgress then
    { scheduled := none, raised := some .operationInProgress }
  else if s.infoQueryFails then
    { scheduled := none, raised := some .addonInfoFailed }
  else if !s.installed then
    { scheduled := some .installSetup, raised := some .notYetReady }
  else if !s.running then
    { scheduled := some .startSetup, raised := some .notYetReady }
  else
    { scheduled := none, raised := none }

/-- C9: while a lifecycle operation is in flight a second setup request
fails fast with the reentry error and queues nothing; with the addon
already running the guard returns with no action; with the addon not
installed it schedules the install in the background and signals not yet
ready; with the addon installed but stopped it schedules the start and
signals not yet ready. -/
theorem C9_lifecycle_guard :
    (∀ s : AddonState, s.taskInProgress = true →
      async_ensure_addon_running s
        = { scheduled := none, raised := some .operationInProgress }) ∧
    (∀ s : AddonState, s.taskInProgress = false → s.infoQueryFails = false →
      s.installed = true → s.running = true →
      async_ensure_addon_running s = { scheduled := none, raised := none }) ∧
    (∀ s : AddonState, s.taskInProgress = false → s.infoQueryFails = false →
      s.installed = false →
      async_ensure_addon_running s
        = { scheduled := some .installSetup, raised := some .notYetReady }) ∧
    (∀ s : AddonState, s.taskInProgress = false → s.infoQueryFails = false →
      s.installed = true → s.running = false →
      async_ensure_addon_running s
        = { scheduled := some .startSetup, raised := some .notYetReady }) := by
  refine ⟨?_, ?_, ?_, ?_⟩ <;>
    · intro s
      intros
      simp [async_ensure_addon_running, *]

/-- Witness for C9 at the four concrete addon states. -/
theorem C9_lifecycle_guard_witness :
    async_ensure_addon_running ⟨true, false, true, true⟩
      = { scheduled := none, raised := some .operationInProgress } ∧
    async_ensure_addon_running ⟨false, false, true, true⟩
      = { scheduled := none, raised := none } ∧
    async_ensure_addon_running ⟨false, false, false, false⟩
      = { scheduled := some .installSetup, raised := some .notYetReady } ∧
    async_ensure_addon_running ⟨false, false, true, false⟩
      = { scheduled := some .startSetup, raised := some .notYetReady } :=
  ⟨C9_lifecycle_guard.1 _ rfl,
    C9_lifecycle_guard.2.1 _ rfl rfl rfl rfl,
    C9_lifecycle_guard.2.2.1 _ rfl rfl rfl,
    C9_lifecycle_guard.2.2.2 _ rfl rfl rfl rfl⟩

/-! ## Platform-setup serialization across concurrent passes (claim C3)

In `async_on_node_ready` the per-descriptor loop body is: if the
platform has no setup task, create one (there is no await between the
check and the insertion, so check-and-create is atomic on the cooperative
event loop); then await the task; then dispatch the add-platform event.
Several nodes' discovery passes interleave only at the await points, so
the session is modelled as a small-step relation over the passes, the
task map and the completion set. -/

/-- The interleaved execution state of the discovery passes of one
session: each pass's remaining descriptors, the platforms whose setup
task exists, the platforms whose setup task has completed, one log entry
per task creation, and the dispatched descriptors. -/
structure Sched where
  passes : List (List DiscInfo)
  tasks : List String
  done : List String
  createLog : List String
  eventLog : List DiscInfo
  deriving DecidableEq, Repr

/-- One cooperative step: a pass at its current descriptor creates the
missing setup task (atomic check-and-insert); the event loop completes a
created task; or a pass whose descriptor's task has completed returns
from the await and dispatches the entity-discovered event.  A pass whose
descriptor's task exists but is not done can only wait. -/
inductive DStep : Sched → Sched → Prop
  | create (s : Sched) (i : Nat) (d : DiscInfo) (rest : List DiscInfo)
      (hpass : s.passes.get? i = some (d :: rest))
      (habs : d.platform ∉ s.tasks) :
      DStep s { s with
        tasks := d.platform :: s.tasks
        createLog := s.createLog ++ [d.platform] }
  | complete (s : Sched) (p : String)
      (hmem : p ∈ s.tasks) (hnot : p ∉ s.done) :
      DStep s { s with done := p :: s.done }
  | dispatch (s : Sched) (i : Nat) (d : DiscInfo) (rest : List DiscInfo)
      (hpass : s.passes.get? i = some (d :: rest))
      (hdone : d.platform ∈ s.done) :
      DStep s { s with
        passes := s.passes.set i rest
        eventLog := s.eventLog ++ [d] }

/-- Session start: `DATA_PLATFORM_SETUP` is the empty dict, nothing
dispatched yet. -/
def initSched (passes : List (List DiscInfo)) : Sched :=
  { passes := passes, tasks := [], done := [], createLog := [], eventLog := [] }

/-- The session invariant: creations are distinct per platform, the
creation log matches the task map, completed platforms have tasks, and
every dispatched descriptor's platform setup has completed. -/
def SchedInv (s : Sched) : Prop :=
  s.createLog.Nodup ∧
  (∀ p, p ∈ s.createLog ↔ p ∈ s.tasks) ∧
  (∀ p ∈ s.done, p ∈ s.tasks) ∧
  (∀ d ∈ s.eventLog, d.platform ∈ s.done)

theorem schedInv_init (passes : List (List DiscInfo)) :
    SchedInv (initSched passes) := by
  refine ⟨List.nodup_nil, fun p => Iff.rfl, ?_, ?_⟩ <;> intro x hx <;>
    simp [initSched] at hx

theorem schedInv_step {s t : Sched} (h : DStep s t) (hs : SchedInv s) :
    SchedInv t := by
  obtain ⟨h1, h2, h3, h4⟩ := hs
  cases h with
  | create i d rest hpass habs =>
      refine ⟨?_, ?_, ?_, h4⟩
      · have hnc : d.platform ∉ s.createLog := fun hc => habs ((h2 _).mp hc)
        simp only [List.nodup_append, List.nodup_cons, List.nodup_nil]
        exact ⟨h1, by simp, by simpa [List.disjoint_singleton] using hnc⟩
      · intro p
        simp only [List.mem_append, List.mem_singleton, List.mem_cons, h2 p]
        tauto
      · intro p hp
        exact List.mem_cons_of_mem _ (h3 p hp)
  | complete p hmem hnot =>
      refine ⟨h1, h2, ?_, ?_⟩
      · intro q hq
        rcases List.mem_cons.mp hq with rfl | hq
        · exact hmem
        · exact h3 q hq
      · intro d hd
        exact List.mem_cons_of_mem _ (h4 d hd)
  | dispatch i d rest hpass hdone =>
      refine ⟨h1, h2, h3, ?_⟩
      intro e he
      rcases List.mem_append.mp he with he | he
      · exact h4 e he
      · rw [List.mem_singleton.mp he]
        exact hdone

/-- C3: in every state reachable from session start, the creation log has
no duplicate platform — at most one setup task is ever created per
platform per session, however many passes reference it concurrently (a
later pass can only await the existing task, never create a second) —
and every published entity-discovered event belongs to a platform whose
setup task has completed. -/
theorem C3_one_setup_task_per_platform (passes : List (List DiscInfo))
    (s : Sched)
    (h : Relation.ReflTransGen DStep (initSched passes) s) :
    s.createLog.Nodup ∧ ∀ d ∈ s.eventLog, d.platform ∈ s.done := by
  have hinv : SchedInv s := by
    induction h with
    | refl => exact schedInv_init passes
    | tail hsteps hstep ih => exact schedInv_step hstep ih
  exact ⟨hinv.1, hinv.2.2.2⟩

/-- The final state of the witness run: two passes both discovered a
`light` entity; one task was created, completed once, and both passes
dispatched after it. -/
def schedFinal : Sched :=
  { passes := [[], []], tasks := ["light"], done := ["light"]
    createLog := ["light"], eventLog := [disc0, disc0] }

/-- Witness for C3: two concurrent passes over the same platform reach
`schedFinal` (first pass creates the task, the loop completes it, both
passes dispatch), and the theorem yields the no-duplicate-creation and
dispatch-after-completion properties there. -/
theorem C3_one_setup_task_per_platform_witness :
    Relation.ReflTransGen DStep (initSched [[disc0], [disc0]]) schedFinal ∧
    (schedFinal.createLog.Nodup ∧
      ∀ d ∈ schedFinal.eventLog, d.platform ∈ schedFinal.done) := by
  have h1 : DStep (initSched [[disc0], [disc0]])
      { passes := [[disc0], [disc0]], tasks := ["light"], done := []
        createLog := ["light"], eventLog := [] } :=
    DStep.create _ 0 disc0 [] (by decide) (by decide)
  have h2 : DStep
      { passes := [[disc0], [disc0]], tasks := ["light"], done := []
        createLog := ["light"], eventLog := [] }
      { passes := [[disc0], [disc0]], tasks := ["light"], done := ["light"]
        createLog := ["light"], eventLog := [] } :=
    DStep.complete _ "light" (by decide) (by decide)
  have h3 : DStep
      { passes := [[disc0], [disc0]], tasks := ["light"], done := ["light"]
        createLog := ["light"], eventLog := [] }
      { passes := [[], [disc0]], tasks := ["light"], done := ["light"]
        createLog := ["light"], eventLog := [disc0] } :=
    DStep.dispatch _ 0 disc0 [] (by decide) (by decide)
  have h4 : DStep
      { passes := [[], [disc0]], tasks := ["light"], done := ["light"]
        createLog := ["light"], eventLog := [disc0] }
      schedFinal :=
    DStep.dispatch _ 1 disc0 [] (by decide) (by decide)
  have hchain : Relation.ReflTransGen DStep (initSched [[disc0], [disc0]])
      schedFinal :=
    Relation.ReflTransGen.tail
      (Relation.ReflTransGen.tail
        (Relation.ReflTransGen.tail
          (Relation.ReflTransGen.tail Relation.ReflTransGen.refl h1) h2) h3) h4
  exact ⟨hchain, C3_one_setup_task_per_platform [[disc0], [disc0]]
    schedFinal hchain⟩
